import Mathlib

/-!
Shallow embedding of the miragejs documentation site's own code:
the Gatsby build hooks (gatsby-node.js: onCreateNode, onCreateWebpackConfig,
createPages, sourceNodes/generateESDoc) and the application-shell routing
code (src/routes/app.js: importAll/renderRoutes/Outlet, Header,
and the DocsPage table-of-contents lookup).
-/

namespace Site

/-! ## Build hooks: createPages -/

/-- Argument record of a Gatsby createRedirect action call. -/
structure Redirect where
  fromPath : String
  toPath : String
deriving DecidableEq, Repr

/-- Argument record of a Gatsby createPage action call. -/
structure PageInput where
  path : String
  matchPath : String
  component : String
deriving DecidableEq, Repr

/-- Model of Node's path.resolve for a cwd-relative "./..." argument:
the current working directory joined with the relative path. -/
def pathResolve (cwd : String) (rel : String) : String :=
  let rel2 := if rel.startsWith "./" then rel.drop 2 else rel
  cwd ++ "/" ++ rel2

/-- The helper createPageForAdam inside exports.createPages: a createPage
call with the given options.path, matchPath "/*", and component
path.resolve of "./src/routes/app.js". -/
def createPageForAdam (cwd : String) (optionsPath : String) : PageInput :=
  { path := optionsPath
  , matchPath := "/*"
  , component := pathResolve cwd "./src/routes/app.js" }

/-- Accumulated effect of one run of a build hook that creates pages and
redirects: the createPage and createRedirect calls it issues, in order. -/
structure CreatePagesResult where
  pages : List PageInput
  redirects : List Redirect
deriving DecidableEq, Repr

/-- exports.createPages: one createRedirect call (/docs to
/docs/getting-started/introduction) followed by one createPageForAdam
call with path "/" (the "/docs" call is commented out in the source). -/
def createPages (cwd : String) : CreatePagesResult :=
  { redirects := [{ fromPath := "/docs", toPath := "/docs/getting-started/introduction" }]
  , pages := [createPageForAdam cwd "/"] }

/-! ## Build hooks: onCreateWebpackConfig -/

/-- One webpack module rule: a test (regex source) and the loader used. -/
structure WebpackRule where
  test : String
  use : String
deriving DecidableEq, Repr

/-- The module.rules fragment passed to setWebpackConfig. -/
structure WebpackConfigPatch where
  rules : List WebpackRule
deriving DecidableEq, Repr

/-- The single rule the hook installs: modules matching @miragejs/server
are handled by the null loader. -/
def mirageNullRule : WebpackRule :=
  { test := "@miragejs\\/server", use := "null-loader" }

/-- exports.onCreateWebpackConfig: calls setWebpackConfig with the
null-loader rule when stage is "build-html" or "develop-html", and
otherwise does nothing (none = no setWebpackConfig call). -/
def onCreateWebpackConfig (stage : String) : Option WebpackConfigPatch :=
  if stage == "build-html" || stage == "develop-html" then
    some { rules := [mirageNullRule] }
  else
    none

/-! ## Build hooks: onCreateNode -/

/-- The internal metadata of a Gatsby node, as far as this hook reads it. -/
structure NodeInternal where
  type : String
deriving DecidableEq, Repr

/-- A Gatsby node as seen by onCreateNode: internal.type and absolutePath. -/
structure GatsbyNode where
  internal : NodeInternal
  absolutePath : String
deriving DecidableEq, Repr

/-- Argument record of a createNodeField action call. -/
structure NodeField where
  name : String
  value : String
deriving DecidableEq, Repr

/-- Whether the needle occurs as a contiguous run somewhere in the
haystack. -/
def containsSub (needle : List Char) : List Char → Bool
  | [] => needle.isPrefixOf []
  | c :: cs => needle.isPrefixOf (c :: cs) || containsSub needle cs

/-- JavaScript regex test of /snippets/ against a string: the literal
substring "snippets" occurs somewhere in it. -/
def matchesSnippets (s : String) : Bool :=
  containsSub "snippets".toList s.toList

/-- exports.onCreateNode: when the node's internal.type is "File" and its
absolutePath matches /snippets/, one createNodeField call attaching the
field "content" with the file's full text (fs.readFileSync of the path);
otherwise no call. readFile stands for the filesystem. -/
def onCreateNode (readFile : String → String) (node : GatsbyNode) : Option NodeField :=
  if node.internal.type == "File" && matchesSnippets node.absolutePath then
    some { name := "content", value := readFile node.absolutePath }
  else
    none

/-! ## Build hooks: sourceNodes / generateESDoc

The esdoc generator's index.json is a list of JSON entries. Entry field
values are modeled opaquely as strings, except the "internal" object the
hook itself constructs, which is modeled structurally. -/

/-- A JSON field value as this hook manipulates it: either an opaque
primitive (rendered as a string) or the internal metadata object the hook
writes. -/
inductive JVal where
  | s (v : String)
  | internalObj (type : String) (contentDigest : String)
deriving DecidableEq, Repr

/-- A JavaScript object: ordered key/value pairs. -/
abbrev JSObject := List (String × JVal)

/-- Property read o[k]: the value at the first occurrence of the key,
or none for undefined. -/
def jsGet (o : JSObject) (k : String) : Option JVal :=
  (o.find? (fun p => p.fst == k)).map Prod.snd

/-- JavaScript object-spread assignment of one key: an existing key keeps
its position and gets the new value, a new key is appended. -/
def setField (o : JSObject) (k : String) (v : JVal) : JSObject :=
  if (o.find? (fun p => p.fst == k)).isSome then
    o.map (fun p => if p.fst == k then (k, v) else p)
  else
    o ++ [(k, v)]

/-- Stringification of a value inside a template literal: undefined
prints as "undefined", a primitive as itself, an object as
"[object Object]". -/
def jsTemplateToString : Option JVal → String
  | none => "undefined"
  | some (JVal.s v) => v
  | some (JVal.internalObj _ _) => "[object Object]"

/-- The data object built for one esdoc entry inside sourceNodes:
the entry spread first, then id (createNodeId of "esdoc-" followed by the
entry's __docId__) and internal (type "ESDoc", contentDigest of the
JSON.stringify of the entry) spread over it. createNodeId,
createContentDigest and JSON.stringify are environment functions. -/
def sourceNodeData (createNodeId : String → String)
    (createContentDigest : String → String)
    (stringifyJSON : JSObject → String) (entry : JSObject) : JSObject :=
  let idVal := JVal.s (createNodeId ("esdoc-" ++ jsTemplateToString (jsGet entry "__docId__")))
  let internalVal := JVal.internalObj "ESDoc" (createContentDigest (stringifyJSON entry))
  setField (setField entry "id" idVal) "internal" internalVal

/-- exports.sourceNodes: for the generator's output list, one createNode
call per entry, in order, each with the data object of sourceNodeData. -/
def sourceNodes (createNodeId : String → String)
    (createContentDigest : String → String)
    (stringifyJSON : JSObject → String) (docNodes : List JSObject) : List JSObject :=
  docNodes.map (sourceNodeData createNodeId createContentDigest stringifyJSON)

/-! ## Application shell: importAll / renderRoutes / Outlet -/

/-- A module in the glob import: only its default export is used. -/
structure Module where
  defaultExport : String
deriving DecidableEq, Repr

/-- The route tree handed to renderRoutes: fullName, path, child routes. -/
inductive Route where
  | mk (fullName : String) (path : String) (routes : List Route)
deriving Repr

def Route.fullName : Route → String
  | .mk f _ _ => f

def Route.path : Route → String
  | .mk _ p _ => p

def Route.routes : Route → List Route
  | .mk _ _ rs => rs

/-- The extension-stripping in importAll:
key.substr(0, key.lastIndexOf(".")) with fallback to the key itself when
the result is empty (substr with a negative index yields "", which is
falsy, as is the empty string when the last dot is at index 0). -/
def keyWithoutExtension (key : String) : String :=
  match key.toList.reverse.findIdx? (fun c => c == '.') with
  | none => key
  | some revIdx =>
    let cut := key.length - 1 - revIdx
    let stripped := String.mk (key.toList.take cut)
    if stripped == "" then key else stripped

/-- importAll over the webpack require.context entries: the map from each
key without its extension to the module, a later entry overwriting an
earlier one with the same stripped key (JS property assignment). -/
def routeComponentsMap (entries : List (String × Module)) (k : String) : Option Module :=
  ((entries.map (fun e => (keyWithoutExtension e.fst, e.snd))).reverse.find?
    (fun p => p.fst == k)).map Prod.snd

/-- The lookup key renderRoutes builds for a route:
"./" followed by the fullName with every dot replaced by a slash. -/
def routeKey (fullName : String) : String :=
  "./" ++ String.mk (fullName.toList.map (fun c => if c == '.' then '/' else c))

/-- A rendered element of the route tree: either a route module's default
export or the fallback EmptyComponent, with path, key and children. -/
inductive RenderedRoute where
  | explicitComp (component : String) (path : String) (key : String)
      (children : List RenderedRoute)
  | emptyComp (path : String) (key : String) (children : List RenderedRoute)
deriving Repr

/-- The fallback component props => props.children: rendering it yields
its children unchanged. -/
def EmptyComponent (children : List RenderedRoute) : List RenderedRoute :=
  children

/-- renderRoutes: map over the routes; a route whose routeKey is in the
component map renders that module's default export, any other route
renders EmptyComponent; children are the recursively rendered subroutes. -/
def renderRoutes (cmap : String → Option Module) : List Route → List RenderedRoute
  | [] => []
  | Route.mk fn p rs :: rest =>
    let rendered :=
      match cmap (routeKey fn) with
      | some m => RenderedRoute.explicitComp m.defaultExport p fn (renderRoutes cmap rs)
      | none => RenderedRoute.emptyComp p fn (renderRoutes cmap rs)
    rendered :: renderRoutes cmap rest

/-- One invocation of Outlet, with the module-level memoizedOutlet as
explicit state: when the cache is unset (undefined) the tree is computed
from the current router.routes and cached; otherwise the cached tree is
returned and the cache kept. A computed tree is a JS array, which is
always truthy, so the cache can never be re-entered once set. -/
def outletCall (cmap : String → Option Module)
    (memoizedOutlet : Option (List RenderedRoute)) (routes : List Route) :
    List RenderedRoute × Option (List RenderedRoute) :=
  match memoizedOutlet with
  | none =>
    let rendered := renderRoutes cmap routes
    (rendered, some rendered)
  | some rendered => (rendered, some rendered)

/-! ## Application shell: Header -/

/-- The click events that reach the Header's state setter. -/
inductive HeaderEvent where
  | clickMobileNavButton
  | clickLogoLink
  | clickMobileNavLink (target : String)
deriving DecidableEq, Repr

/-- useState(false): the initial value of isShowingMobileNav. -/
def headerInitialState : Bool := false

/-- The Header's state transition: the mobile nav button's onClick sets
the negation, the logo link's onClick and every MobileNavLink's onClick
set false. -/
def headerStep (isShowingMobileNav : Bool) : HeaderEvent → Bool
  | .clickMobileNavButton => !isShowingMobileNav
  | .clickLogoLink => false
  | .clickMobileNavLink _ => false

/-- The to-targets of the three MobileNavLinks, in document order. -/
def mobileNavLinkTargets : List String :=
  ["/docs/getting-started/introduction", "/api/classes/association",
   "https://github.com/miragejs/server"]

/-- The mobile navigation region of the Header's render:
isShowingMobileNav && <nav>...</nav> renders the nav (with its three
links) exactly when the boolean is true, else nothing. -/
def renderMobileNav (isShowingMobileNav : Bool) : Option (List String) :=
  if isShowingMobileNav then some mobileNavLinkTargets else none

/-! ## DocsPage: table-of-contents lookup

Model of the two regular-expression operations in DocsPage. File paths
and pathnames contain no newline, so the regex dot is modeled as matching
any character. -/

/-- The literal head of the capture group: the characters of
"/examples/". -/
def examplesLit : List Char := "/examples/".toList

/-- The literal ".md" that must follow the greedy dot-plus. -/
def dotMd : List Char := ['.', 'm', 'd']

/-- Whether ".md" starts at offset k of the character list. -/
def mdStartsAt (cs : List Char) (k : Nat) : Bool :=
  dotMd.isPrefixOf (cs.drop k)

/-- Backtracking of the greedy .+ before \.md: the largest offset of at
least 1 where ".md" starts, if any. -/
def lastMdIndex (cs : List Char) : Option Nat :=
  ((List.range (cs.length + 1)).filter
    (fun k => decide (1 ≤ k) && mdStartsAt cs k)).getLast?

/-- Leftmost match of /(\/examples\/.+)\.md[x]?/ over the character
positions: at the first position where "/examples/" starts and ".md"
occurs later with at least one character in between, the capture group is
"/examples/" plus the greedy dot-plus span; otherwise the scan moves one
position right. The trailing [x]? never constrains the match. -/
def examplesCaptureAux : List Char → Option (List Char)
  | [] => none
  | c :: cs =>
    if examplesLit.isPrefixOf (c :: cs) then
      match lastMdIndex ((c :: cs).drop examplesLit.length) with
      | some k => some (examplesLit ++ ((c :: cs).drop examplesLit.length).take k)
      | none => examplesCaptureAux cs
    else examplesCaptureAux cs

/-- node.fileAbsolutePath.match(/(\/examples\/.+)\.md[x]?/): the first
capture group of the leftmost match, or none when the path does not
match. -/
def examplesCapture (s : String) : Option String :=
  (examplesCaptureAux s.toList).map (fun cs => String.mk cs)

/-- A token of the dynamically built regular expression: a literal
character, the dot wildcard, or either made optional by a following
question mark. -/
inductive RTok where
  | lit (c : Char)
  | wild
  | optLit (c : Char)
  | optWild
deriving DecidableEq, Repr

/-- Parse a regex source built from a captured file subpath plus "/?":
a question mark makes the preceding character optional, a dot is the
wildcard, every other character is a literal. -/
def parseRegex : List Char → List RTok
  | [] => []
  | c :: '?' :: rest =>
    (if c == '.' then RTok.optWild else RTok.optLit c) :: parseRegex rest
  | c :: rest =>
    (if c == '.' then RTok.wild else RTok.lit c) :: parseRegex rest

/-- Whether the token list matches a prefix of the character list. -/
def matchHere : List RTok → List Char → Bool
  | [], _ => true
  | RTok.lit c :: ts, d :: cs => c == d && matchHere ts cs
  | RTok.lit _ :: _, [] => false
  | RTok.wild :: ts, _ :: cs => matchHere ts cs
  | RTok.wild :: _, [] => false
  | RTok.optLit c :: ts, d :: cs => (c == d && matchHere ts cs) || matchHere ts (d :: cs)
  | RTok.optLit _ :: ts, [] => matchHere ts []
  | RTok.optWild :: ts, d :: cs => matchHere ts cs || matchHere ts (d :: cs)
  | RTok.optWild :: ts, [] => matchHere ts []

/-- Whether the token list matches starting at any position. -/
def searchFrom (ts : List RTok) : List Char → Bool
  | [] => matchHere ts []
  | c :: cs => matchHere ts (c :: cs) || searchFrom ts cs

/-- new RegExp(pattern).test(target): some position of the target
matches the pattern. -/
def regexTest (pattern target : String) : Bool :=
  searchFrom (parseRegex pattern.toList) target.toList

/-- One item of a node's tableOfContents.items: its items sub-list, or
none when the key is absent; the sub-entries are opaque. -/
structure TocItem where
  items : Option (List String)
deriving DecidableEq, Repr

/-- A node's tableOfContents: its items list, or none when the key is
absent (a page without headings). -/
structure Toc where
  items : Option (List TocItem)
deriving DecidableEq, Repr

/-- An allMdx node as DocsPage queries it. -/
structure MdxNode where
  tableOfContents : Toc
  fileAbsolutePath : String
deriving DecidableEq, Repr

/-- The find callback in DocsPage: didMatch is true exactly when the
fileAbsolutePath matches /(\/examples\/.+)\.md[x]?/ and the regex built
from the capture group followed by "/?" tests true against the
pathname. -/
def docsPageNodeMatches (pathname : String) (node : MdxNode) : Bool :=
  match examplesCapture node.fileAbsolutePath with
  | some cap => regexTest (cap ++ "/?") pathname
  | none => false

/-- data.allMdx.nodes.find(...): the first node in query order whose
callback returns true. -/
def findMdxPage (pathname : String) (nodes : List MdxNode) : Option MdxNode :=
  nodes.find? (docsPageNodeMatches pathname)

/-- Evaluation of mdxPage && mdxPage.tableOfContents.items[0].items with
JavaScript semantics: an unmatched page short-circuits to undefined
(ok none); with a match, indexing [0] of an absent items key throws, as
does reading .items of the undefined produced by [0] on an empty list;
otherwise the value is the first item's items (possibly undefined). -/
def tableOfContentsItems (pathname : String) (nodes : List MdxNode) :
    Except String (Option (List String)) :=
  match findMdxPage pathname nodes with
  | none => Except.ok none
  | some page =>
    match page.tableOfContents.items with
    | none => Except.error "TypeError: cannot read 0 of undefined"
    | some l =>
      match l.head? with
      | none => Except.error "TypeError: cannot read items of undefined"
      | some item0 => Except.ok item0.items

/-- Whether an Except evaluation completed without throwing. -/
def evalOk {α : Type} : Except String α → Bool
  | Except.ok _ => true
  | Except.error _ => false

/-- A concrete component map for exercising renderRoutes: the glob
entries hold one module under ./docs/orm.mdx. -/
def cmapW : String → Option Module :=
  routeComponentsMap [("./docs/orm.mdx", { defaultExport := "OrmPage" })]

/-- A concrete allMdx node list for exercising the DocsPage lookup:
a docs node that never matches, then two examples nodes whose subpaths
both test true against the pathname of the witness. -/
def mdxNodesW : List MdxNode :=
  [ { tableOfContents := { items := some [{ items := some ["intro"] }] }
    , fileAbsolutePath := "/site/src/routes/docs/data-layer/orm.mdx" }
  , { tableOfContents := { items := some [{ items := some ["a", "b"] }] }
    , fileAbsolutePath := "/site/src/routes/examples/react/simple-example.mdx" }
  , { tableOfContents := { items := some [{ items := some ["c"] }] }
    , fileAbsolutePath := "/site/src/routes/examples/react.mdx" } ]

end Site

namespace Site

/-- Claim C1: the createPages hook issues exactly one createPage call;
its matchPath is "/*" and its component is the resolved
./src/routes/app.js, so every path renders through that one top-level
component. -/
theorem createPages_catch_all_page (cwd : String) :
    (createPages cwd).pages =
      [{ path := "/", matchPath := "/*",
         component := pathResolve cwd "./src/routes/app.js" }] :=
  rfl

/-- Claim C2: the createPages hook registers the redirect from /docs to
/docs/getting-started/introduction and no other redirect. -/
theorem createPages_single_redirect (cwd : String) :
    (createPages cwd).redirects =
      [{ fromPath := "/docs", toPath := "/docs/getting-started/introduction" }] :=
  rfl

/-- Claim C6: onCreateWebpackConfig installs the @miragejs/server
null-loader rule exactly for the stages "build-html" and "develop-html",
and leaves the webpack configuration untouched for every other stage. -/
theorem onCreateWebpackConfig_null_loader_stages (stage : String) :
    ((stage = "build-html" ∨ stage = "develop-html") →
      onCreateWebpackConfig stage = some { rules := [mirageNullRule] })
    ∧ (stage ≠ "build-html" → stage ≠ "develop-html" →
      onCreateWebpackConfig stage = none) := by
  constructor
  · intro h
    rcases h with h | h <;> simp [onCreateWebpackConfig, h]
  · intro h1 h2
    simp [onCreateWebpackConfig, h1, h2]

/-- Witness for C6: the rule is installed at stage "build-html" and
nothing happens at stage "develop". -/
theorem onCreateWebpackConfig_null_loader_stages_witness :
    onCreateWebpackConfig "build-html" = some { rules := [mirageNullRule] }
    ∧ onCreateWebpackConfig "develop" = none :=
  ⟨(onCreateWebpackConfig_null_loader_stages "build-html").1 (Or.inl rfl),
   (onCreateWebpackConfig_null_loader_stages "develop").2 (by decide) (by decide)⟩

/-- Claim C7: onCreateNode attaches the field "content" holding the
file's full text exactly when the node's internal type is "File" and its
absolute path matches /snippets/; otherwise it creates no field. -/
theorem onCreateNode_snippets_content (readFile : String → String)
    (node : GatsbyNode) :
    ((node.internal.type = "File" ∧ matchesSnippets node.absolutePath = true) →
      onCreateNode readFile node =
        some { name := "content", value := readFile node.absolutePath })
    ∧ (¬(node.internal.type = "File" ∧ matchesSnippets node.absolutePath = true) →
      onCreateNode readFile node = none) := by
  constructor
  · rintro ⟨h1, h2⟩
    simp [onCreateNode, h1, h2]
  · intro h
    by_cases h1 : node.internal.type = "File"
    · by_cases h2 : matchesSnippets node.absolutePath = true
      · exact absurd ⟨h1, h2⟩ h
      · simp [onCreateNode, h2]
    · simp [onCreateNode, h1]

/-- Witness for C7: a File node under a snippets directory gets the
content field; a File node elsewhere gets none. -/
theorem onCreateNode_snippets_content_witness :
    onCreateNode (fun _ => "filetext")
        { internal := { type := "File" }, absolutePath := "/a/snippets/b.js" } =
      some { name := "content", value := "filetext" }
    ∧ onCreateNode (fun _ => "filetext")
        { internal := { type := "File" }, absolutePath := "/a/other/b.js" } = none :=
  ⟨(onCreateNode_snippets_content (fun _ => "filetext")
      { internal := { type := "File" }, absolutePath := "/a/snippets/b.js" }).1
      ⟨rfl, by decide⟩,
   (onCreateNode_snippets_content (fun _ => "filetext")
      { internal := { type := "File" }, absolutePath := "/a/other/b.js" }).2
      (by decide)⟩

/-- Claim C5: the Header's only piece of state is the boolean
isShowingMobileNav, initially false; the mobile nav button's click
replaces it by its negation, a click of the logo link or of any mobile
nav link sets it to false, and the mobile navigation list is rendered
exactly when the boolean is true. -/
theorem header_mobile_nav_state (s : Bool) (t : String) :
    headerInitialState = false
    ∧ headerStep s HeaderEvent.clickMobileNavButton = !s
    ∧ headerStep s HeaderEvent.clickLogoLink = false
    ∧ headerStep s (HeaderEvent.clickMobileNavLink t) = false
    ∧ ((renderMobileNav s).isSome = true ↔ s = true) := by
  refine ⟨rfl, rfl, rfl, rfl, ?_⟩
  cases s <;> simp [renderMobileNav]

/-- Claim C3: renderRoutes renders, for a route whose key is in the
module map, that module's default export, and for a route whose key is
not, the EmptyComponent, whose rendering returns its children unchanged;
the lookup has no other branch. -/
theorem renderRoutes_lookup (cmap : String → Option Module) (fn p : String)
    (rs rest : List Route) :
    (∀ m : Module, cmap (routeKey fn) = some m →
      renderRoutes cmap (Route.mk fn p rs :: rest) =
        RenderedRoute.explicitComp m.defaultExport p fn (renderRoutes cmap rs)
          :: renderRoutes cmap rest)
    ∧ (cmap (routeKey fn) = none →
      renderRoutes cmap (Route.mk fn p rs :: rest) =
        RenderedRoute.emptyComp p fn (renderRoutes cmap rs)
          :: renderRoutes cmap rest)
    ∧ (∀ children, EmptyComponent children = children) := by
  refine ⟨?_, ?_, fun _ => rfl⟩
  · intro m hm
    simp [renderRoutes, hm]
  · intro hm
    simp [renderRoutes, hm]

/-- Witness for C3: under the concrete map, the route docs.orm renders
the module's default export and the route missing.page renders the
EmptyComponent. -/
theorem renderRoutes_lookup_witness :
    renderRoutes cmapW [Route.mk "docs.orm" "/docs/orm" []] =
      RenderedRoute.explicitComp "OrmPage" "/docs/orm" "docs.orm"
        (renderRoutes cmapW []) :: renderRoutes cmapW []
    ∧ renderRoutes cmapW [Route.mk "missing.page" "/m" []] =
      RenderedRoute.emptyComp "/m" "missing.page"
        (renderRoutes cmapW []) :: renderRoutes cmapW [] :=
  ⟨(renderRoutes_lookup cmapW "docs.orm" "/docs/orm" [] []).1
      { defaultExport := "OrmPage" } (by decide),
   (renderRoutes_lookup cmapW "missing.page" "/m" [] []).2.1 (by decide)⟩

/-- Overwriting an existing key in place leaves lookup of that key at
the new value. -/
theorem find?_overwrite_same (o : JSObject) (k : String) (v : JVal)
    (h : (o.find? (fun p => p.fst == k)).isSome = true) :
    (o.map (fun p => if p.fst == k then (k, v) else p)).find?
      (fun p => p.fst == k) = some (k, v) := by
  induction o with
  | nil => simp at h
  | cons a rest ih =>
    by_cases ha : (a.fst == k) = true
    · simp [List.find?, ha]
    · have ha2 : (a.fst == k) = false := by simpa using ha
      simp only [List.find?_cons, List.find?, ha2] at h
      simp only [List.map_cons, ha2, Bool.false_eq_true, if_false]
      simp only [List.find?, ha2]
      exact ih h

/-- Overwriting one key in place does not change lookup of a different
key. -/
theorem find?_overwrite_other (o : JSObject) (k k2 : String) (v : JVal)
    (h : (k == k2) = false) :
    (o.map (fun p => if p.fst == k then (k, v) else p)).find?
      (fun p => p.fst == k2) = o.find? (fun p => p.fst == k2) := by
  induction o with
  | nil => simp
  | cons a rest ih =>
    by_cases ha : (a.fst == k) = true
    · have haeq : a.fst = k := by simpa using ha
      have ha3 : (a.fst == k2) = false := by
        rw [haeq]; exact h
      simp only [List.map_cons, ha, if_true]
      simp only [List.find?, h, ha3]
      exact ih
    · have ha2 : (a.fst == k) = false := by simpa using ha
      simp only [List.map_cons, ha2, Bool.false_eq_true, if_false]
      by_cases hb : (a.fst == k2) = true
      · simp only [List.find?, hb]
      · have hb2 : (a.fst == k2) = false := by simpa using hb
        simp only [List.find?, hb2]
        exact ih

/-- Reading back the key just written by setField yields the new
value. -/
theorem jsGet_setField_same (o : JSObject) (k : String) (v : JVal) :
    jsGet (setField o k v) k = some v := by
  unfold setField jsGet
  split
  next h =>
    rw [find?_overwrite_same o k v h]
    rfl
  next h =>
    rw [List.find?_append]
    have hn : o.find? (fun p => p.fst == k) = none := by
      cases hh : o.find? (fun p => p.fst == k) <;> simp [hh] at h ⊢
    simp [hn, List.find?]

/-- Reading a different key after setField yields the original value. -/
theorem jsGet_setField_other (o : JSObject) (k k2 : String) (v : JVal)
    (h : k2 ≠ k) :
    jsGet (setField o k v) k2 = jsGet o k2 := by
  have hb : (k == k2) = false := by simpa using (Ne.symm h)
  unfold setField jsGet
  split
  next =>
    rw [find?_overwrite_other o k k2 v hb]
  next =>
    rw [List.find?_append]
    have h1 : List.find? (fun p => p.fst == k2) [(k, v)] = none := by
      simp [List.find?, hb]
    cases hh : o.find? (fun p => p.fst == k2) <;> simp [hh, h1]

/-- Claim C8 (amended): sourceNodes creates exactly one node per entry
of the generator's output, of internal type "ESDoc", with id the
createNodeId of "esdoc-" followed by the entry's __docId__, carrying
every field of the entry except id and internal, which the hook
overwrites. -/
theorem sourceNodes_esdoc_nodes (cni ccd : String → String)
    (st : JSObject → String) (docNodes : List JSObject) (entry : JSObject) :
    (sourceNodes cni ccd st docNodes).length = docNodes.length
    ∧ (entry ∈ docNodes →
        sourceNodeData cni ccd st entry ∈ sourceNodes cni ccd st docNodes)
    ∧ jsGet (sourceNodeData cni ccd st entry) "internal" =
        some (JVal.internalObj "ESDoc" (ccd (st entry)))
    ∧ jsGet (sourceNodeData cni ccd st entry) "id" =
        some (JVal.s (cni ("esdoc-" ++ jsTemplateToString (jsGet entry "__docId__"))))
    ∧ ∀ k : String, k ≠ "id" → k ≠ "internal" →
        jsGet (sourceNodeData cni ccd st entry) k = jsGet entry k := by
  refine ⟨by simp [sourceNodes], fun hm => List.mem_map_of_mem _ hm, ?_, ?_, ?_⟩
  · exact jsGet_setField_same _ _ _
  · unfold sourceNodeData
    rw [jsGet_setField_other _ _ _ _ (by decide)]
    exact jsGet_setField_same _ _ _
  · intro k h1 h2
    unfold sourceNodeData
    rw [jsGet_setField_other _ _ _ _ h2, jsGet_setField_other _ _ _ _ h1]

/-- Witness for C8 (amended): on a two-entry output with concrete
environment functions, two nodes are created, the first carries the
generated id and internal metadata, and its "kind" field is the
entry's. -/
theorem sourceNodes_esdoc_nodes_witness :
    (sourceNodes (fun s => String.append "node-" s) (fun _ => "digest")
        (fun _ => "json")
        [[("__docId__", JVal.s "7"), ("kind", JVal.s "class")],
         [("__docId__", JVal.s "8")]]).length = 2
    ∧ jsGet (sourceNodeData (fun s => String.append "node-" s) (fun _ => "digest")
        (fun _ => "json") [("__docId__", JVal.s "7"), ("kind", JVal.s "class")])
        "kind" = some (JVal.s "class") := by
  constructor
  · exact (sourceNodes_esdoc_nodes (fun s => String.append "node-" s)
      (fun _ => "digest") (fun _ => "json")
      [[("__docId__", JVal.s "7"), ("kind", JVal.s "class")],
       [("__docId__", JVal.s "8")]] []).1
  · rw [(sourceNodes_esdoc_nodes (fun s => String.append "node-" s)
      (fun _ => "digest") (fun _ => "json") []
      [("__docId__", JVal.s "7"), ("kind", JVal.s "class")]).2.2.2.2
      "kind" (by decide) (by decide)]
    decide

/-- Counterexample for C8 as stated: an entry that itself has an "id"
field does not keep it; the created node's id is the generated one, so
the node does not carry all of the entry's fields. -/
theorem sourceNodes_id_field_clobbered :
    jsGet [("__docId__", JVal.s "7"), ("id", JVal.s "custom")] "id" =
      some (JVal.s "custom")
    ∧ jsGet (sourceNodeData (fun s => String.append "generated-" s)
        (fun _ => "digest") (fun _ => "json")
        [("__docId__", JVal.s "7"), ("id", JVal.s "custom")]) "id" ≠
      some (JVal.s "custom") := by
  exact ⟨rfl, by decide⟩

/-- The first index satisfying a predicate is the one find? returns. -/
theorem find?_first_index {α : Type} (p : α → Bool) (l : List α) (k : Nat)
    (hk : k < l.length) (hmatch : p (l.get ⟨k, hk⟩) = true)
    (hbefore : ∀ j (hj : j < k), p (l.get ⟨j, Nat.lt_trans hj hk⟩) = false) :
    l.find? p = some (l.get ⟨k, hk⟩) := by
  induction l generalizing k with
  | nil => exact absurd hk (Nat.not_lt_zero k)
  | cons a rest ih =>
    cases k with
    | zero => exact List.find?_cons_of_pos _ hmatch
    | succ k2 =>
      have h0 : p a = false := hbefore 0 (Nat.succ_pos k2)
      rw [List.find?_cons_of_neg _ (by simp [h0])]
      exact ih k2 (Nat.lt_of_succ_lt_succ hk) hmatch
        (fun j hj => hbefore (j + 1) (Nat.succ_lt_succ hj))

/-- Claim C4: the table-of-contents lookup scans the MDX nodes in query
order and selects the first node whose fileAbsolutePath matches the
examples pattern and whose captured subpath, as a regular expression,
tests true against the pathname; a later matching node is never
selected. -/
theorem docsPage_first_match (pathname : String) (nodes : List MdxNode)
    (k : Nat) (hk : k < nodes.length)
    (hmatch : docsPageNodeMatches pathname (nodes.get ⟨k, hk⟩) = true)
    (hbefore : ∀ j (hj : j < k),
      docsPageNodeMatches pathname (nodes.get ⟨j, Nat.lt_trans hj hk⟩) = false) :
    findMdxPage pathname nodes = some (nodes.get ⟨k, hk⟩)
    ∧ ∀ node : MdxNode, docsPageNodeMatches pathname node = true ↔
        ∃ cap, examplesCapture node.fileAbsolutePath = some cap
          ∧ regexTest (cap ++ "/?") pathname = true := by
  constructor
  · exact find?_first_index (docsPageNodeMatches pathname) nodes k hk hmatch hbefore
  · intro node
    unfold docsPageNodeMatches
    cases hc : examplesCapture node.fileAbsolutePath with
    | none => simp
    | some cap =>
      constructor
      · intro ht
        exact ⟨cap, rfl, ht⟩
      · rintro ⟨cap2, hc2, ht2⟩
        cases hc2
        exact ht2

/-- Witness for C4: on three concrete nodes where the first does not
match and both the second and the third match the pathname, the lookup
selects the second. -/
theorem docsPage_first_match_witness :
    findMdxPage "/examples/react/simple-example" mdxNodesW =
      some (mdxNodesW.get ⟨1, by decide⟩)
    ∧ docsPageNodeMatches "/examples/react/simple-example"
        (mdxNodesW.get ⟨2, by decide⟩) = true := by
  constructor
  · exact (docsPage_first_match "/examples/react/simple-example" mdxNodesW 1
      (by decide) (by decide)
      (fun j hj => by
        have hj0 : j = 0 := Nat.lt_one_iff.mp hj
        subst hj0
        exact (by decide : docsPageNodeMatches "/examples/react/simple-example"
          { tableOfContents := { items := some [{ items := some ["intro"] }] }
          , fileAbsolutePath := "/site/src/routes/docs/data-layer/orm.mdx" }
            = false))).1
  · decide

/-- Claim C10: with no matching MDX node the table-of-contents
expression evaluates to undefined without error; with a match, its
evaluation succeeds exactly when the matched node's tableOfContents has
at least one top-level item. -/
theorem docsPage_toc_partiality (pathname : String) (nodes : List MdxNode) :
    (findMdxPage pathname nodes = none →
      tableOfContentsItems pathname nodes = Except.ok none)
    ∧ (∀ page, findMdxPage pathname nodes = some page →
        (evalOk (tableOfContentsItems pathname nodes) = true ↔
          ∃ l, page.tableOfContents.items = some l ∧ l ≠ [])) := by
  constructor
  · intro h
    simp [tableOfContentsItems, h]
  · intro page h
    unfold tableOfContentsItems
    rw [h]
    cases hI : page.tableOfContents.items with
    | none => simp [evalOk, hI]
    | some l =>
      cases l with
      | nil => simp [evalOk, hI]
      | cons i rest => simp [evalOk, hI, List.head?]

/-- Witness for C10: the empty node list gives undefined without error;
the matched concrete node, whose tableOfContents has one top-level item,
evaluates without error. -/
theorem docsPage_toc_partiality_witness :
    tableOfContentsItems "/examples/react/simple-example" [] = Except.ok none
    ∧ evalOk (tableOfContentsItems "/examples/react/simple-example" mdxNodesW)
        = true := by
  constructor
  · exact (docsPage_toc_partiality "/examples/react/simple-example" []).1 (by decide)
  · exact ((docsPage_toc_partiality "/examples/react/simple-example" mdxNodesW).2
      { tableOfContents := { items := some [{ items := some ["a", "b"] }] }
      , fileAbsolutePath := "/site/src/routes/examples/react/simple-example.mdx" }
      (by decide)).mpr ⟨[{ items := some ["a", "b"] }], rfl, by decide⟩

/-- Claim C9: Outlet computes the rendered tree from router.routes only
when the module-level cache is unset; once the cache holds a tree, every
later invocation returns that same tree and keeps the cache, whatever
router.routes now is. -/
theorem outlet_memoizes_first_render (cmap : String → Option Module)
    (r1 r2 : List Route) (t : List RenderedRoute) :
    outletCall cmap none r1 = (renderRoutes cmap r1, some (renderRoutes cmap r1))
    ∧ outletCall cmap (some t) r2 = (t, some t)
    ∧ (outletCall cmap (outletCall cmap none r1).snd r2).fst =
        (outletCall cmap none r1).fst :=
  ⟨rfl, rfl, rfl⟩

end Site
